import Mathlib

/-! Verification of the simple-raytracer core: a shallow embedding over the
reals of src/ray.py, src/raytrace.py, src/shaders.py, src/utils.py and
src/sky.py, followed by theorems settling the frozen claims about them. -/

namespace SimpleRaytracer

noncomputable section

/-- Three-component numeric vector (the numpy length-3 arrays of the source). -/
structure V3 where
  x : ℝ
  y : ℝ
  z : ℝ

instance : Add V3 := ⟨fun a b => ⟨a.x + b.x, a.y + b.y, a.z + b.z⟩⟩

instance : Sub V3 := ⟨fun a b => ⟨a.x - b.x, a.y - b.y, a.z - b.z⟩⟩

instance : Neg V3 := ⟨fun a => ⟨-a.x, -a.y, -a.z⟩⟩

/-- Elementwise product, as numpy `*` between arrays. -/
instance : Mul V3 := ⟨fun a b => ⟨a.x * b.x, a.y * b.y, a.z * b.z⟩⟩

instance : SMul ℝ V3 := ⟨fun c a => ⟨c * a.x, c * a.y, c * a.z⟩⟩

instance : Zero V3 := ⟨(⟨0, 0, 0⟩ : V3)⟩

/-- numpy `np.dot` on 3-vectors. -/
def dot (a b : V3) : ℝ := a.x * b.x + a.y * b.y + a.z * b.z

/-- utils.normalize: divide by the Euclidean norm unless that norm is zero
(np.linalg.norm of a 3-vector is the square root of its dot square). -/
def normalize (arr : V3) : V3 :=
  let norm := Real.sqrt (dot arr arr)
  if norm = 0 then arr else (1 / norm) • arr

/-- object.Plane as consumed by src/ray.py: a point on the plane (`position`)
and its normal (`n`). -/
structure Plane where
  position : V3
  n : V3

/-- object.Sphere as consumed by src/ray.py: center (`position`) and radius. -/
structure Sphere where
  position : V3
  radius : ℝ

/-- object.Triangle as consumed by src/ray.py.  object.py is not part of src/,
so `get_barycentric_coord` is kept abstract as a function field; ray.py only
uses the triangle's supporting-plane attributes (`position`, `n`) and that
function. -/
structure Triangle where
  position : V3
  n : V3
  get_barycentric_coord : V3 → ℝ × ℝ

/-- object.Tetrahedron as consumed by src/ray.py: `get_triangles` yields its
four faces; kept as a list field since object.py is not part of src/. -/
structure Tetrahedron where
  get_triangles : List Triangle

/-- ray.Ray: origin point `pr` and director vector `nr`. -/
structure Ray where
  pr : V3
  nr : V3

/-- Ray.at: the point on the ray at parameter `t` (the name `at` is reserved
in Lean, hence `at_t`). -/
def Ray.at_t (r : Ray) (t : ℝ) : V3 := r.pr + t • r.nr

/-- Ray.intersect_plane from src/ray.py. -/
def Ray.intersect_plane (r : Ray) (plane : Plane) : ℝ :=
  let dot_normals := dot r.nr plane.n
  if dot_normals = 0 then
    if dot (plane.position - r.pr) plane.n = 0 then 0 else -1
  else
    let t := dot (plane.position - r.pr) plane.n / dot_normals
    if t < 0 then -1 else t

/-- Ray.intersect_sphere from src/ray.py. -/
def Ray.intersect_sphere (r : Ray) (sphere : Sphere) : ℝ :=
  let pc := sphere.position
  let dif := r.pr - pc
  let b := dot r.nr dif
  let c := dot dif dif - sphere.radius ^ 2
  let discriminant := b ^ 2 - c
  if b > 0 ∨ discriminant < 0 then -1
  else -1 * b - Real.sqrt discriminant

/-- Ray.intersect_triangle from src/ray.py; the triangle duck-types as its own
supporting plane through its `position`/`n` attributes. -/
def Ray.intersect_triangle (r : Ray) (triangle : Triangle) : ℝ :=
  let ray_t := r.intersect_plane ⟨triangle.position, triangle.n⟩
  let p_in_plane := r.at_t ray_t
  let st := triangle.get_barycentric_coord p_in_plane
  if ¬(0 ≤ st.1 ∧ st.1 ≤ 1) ∨ ¬(0 ≤ st.2 ∧ st.2 ≤ 1) ∨
      ¬(0 ≤ st.1 + st.2 ∧ st.1 + st.2 ≤ 1) then -1
  else ray_t

/-- Ray.intersect_tetrahedron from src/ray.py: minimum strictly positive `t`
over the faces; the `np.inf` initial value is modelled by `Option` (`none`
standing for "still infinite"). -/
def Ray.intersect_tetrahedron (r : Ray) (tetrahedron : Tetrahedron) : ℝ :=
  let min_t := tetrahedron.get_triangles.foldl
    (fun acc tr =>
      let t := r.intersect_triangle tr
      match acc with
      | none => if 0 < t then some t else none
      | some m => if 0 < t ∧ t < m then some t else some m)
    none
  match min_t with
  | none => -1
  | some m => m

/-! ### src/shaders.py -/

/-- Shader tag constant from src/shaders.py. -/
def TYPE_DIFFUSE_LIGHT : String := "diffuse_light"

/-- Shader tag constant from src/shaders.py. -/
def TYPE_DIFFUSE_COLORS : String := "diffuse_colors"

/-- Shader tag constant from src/shaders.py. -/
def TYPE_DIFF_SPECULAR : String := "diffuse_with_specular"

/-- Shader tag constant from src/shaders.py. -/
def TYPE_DIFF_SPEC_BORDER : String := "diffuse_specular_border"

/-- Highlight color constant from src/shaders.py. -/
def COLOR_FOR_LIGHT : V3 := ⟨255, 255, 255⟩

/-- Border color constant from src/shaders.py. -/
def COLOR_FOR_BORDER : V3 := ⟨185, 185, 185⟩

/-- Default specular size from src/shaders.py. -/
def DEFAULT_KS : ℝ := 0.8

/-- Default border thickness from src/shaders.py. -/
def DEFAULT_THICKNESS : ℝ := 0.7

/-- shaders.diffuse_light: grayscale diffuse coefficient (a numpy scalar). -/
def diffuse_light (n l : V3) : ℝ :=
  let diffuse_coef := dot n l
  max 0 diffuse_coef

/-- shaders.diffuse_colors. -/
def diffuse_colors (n l dark light : V3) : V3 :=
  let diffuse_coef := dot n l
  let t := max 0 diffuse_coef
  t • light + (1 - t) • dark

/-- shaders.diffuse_with_specular. -/
def diffuse_with_specular (n l eye dark light : V3) (ks : ℝ) : V3 :=
  let n_dot_l := dot n l
  let t := max 0 n_dot_l
  let color := t • light + (1 - t) • dark
  let r := (-1 : ℝ) • l + (2 * n_dot_l) • n
  let s := dot eye r
  let s := max 0 s
  let step_min : ℝ := 0.73
  let step_max : ℝ := 1
  let s := (s - step_min) / (step_max - step_min)
  let s := if s < 0 then 0 else if s > 1 then 1 else s
  let s := -2 * s ^ 3 + 3 * s ^ 2
  (1 - s * ks) • color + (s * ks) • COLOR_FOR_LIGHT

/-- shaders.diffuse_specular_border. -/
def diffuse_specular_border (n l eye dark light : V3) (ks thickness : ℝ) : V3 :=
  let b := max 0 (1 - dot eye n)
  let step_min := thickness
  let step_max : ℝ := 1
  let b := (b - step_min) / (step_max - step_min)
  let b := if b < 0 then 0 else if b > 1 then 1 else b
  let color := diffuse_with_specular n l eye dark light ks
  (1 - b) • color + b • COLOR_FOR_BORDER

/-! ### src/raytrace.py -/

/-- Modelled from the spec: constants.py is not under src/; the spec fixes the
color range as bytes `[0,255]` (sections 4.3 and 6), so `MAX_COLOR_VALUE = 255`. -/
def MAX_COLOR_VALUE : ℝ := 255

/-- numpy array / scalar, componentwise. -/
def V3.divS (v : V3) (c : ℝ) : V3 := ⟨v.x / c, v.y / c, v.z / c⟩

/-- DARK_VALUE from src/raytrace.py: `[15,15,15] / MAX_COLOR_VALUE`. -/
def DARK_VALUE : V3 := V3.divS ⟨15, 15, 15⟩ MAX_COLOR_VALUE

/-- LIGHT_VALUE from src/raytrace.py: `[240,240,240] / MAX_COLOR_VALUE`. -/
def LIGHT_VALUE : V3 := V3.divS ⟨240, 240, 240⟩ MAX_COLOR_VALUE

/-- light.Light as consumed by src/raytrace.py.  light.py is not part of src/,
so the two derived per-point queries the core uses are kept abstract as
function fields. -/
structure Light where
  get_l : V3 → V3
  get_dist : V3 → ℝ

/-- The closed set of primitive kinds dispatched by Ray.intersect
(`isinstance` checks in src/ray.py).  `hollow_sphere` is Modelled from the
spec: object.py is not under src/ and spec section 4.1 says HollowSphere
reuses the sphere solver (the isinstance check on Sphere matches it).
`unknown` stands for any unrecognized kind. -/
inductive Shape where
  | sphere : Sphere → Shape
  | plane : Plane → Shape
  | tetrahedron : Tetrahedron → Shape
  | triangle : Triangle → Shape
  | hollow_sphere : Sphere → Shape
  | unknown : Shape

/-- A scene object as consumed by src/raytrace.py: geometry for intersection
dispatch, plus the attributes compute_color reads.  object.py is not part of
src/, so `normal_at` (which may return None on degenerate geometry, spec
section 7) is kept abstract as a function field; `diffuse` is
`obj.material.diffuse`. -/
structure Obj where
  shape : Shape
  normal_at : V3 → Option V3
  diffuse : V3
  shader_type : String

/-- Ray.intersect from src/ray.py: dispatch over the primitive kind. -/
def Ray.intersect (r : Ray) (obj : Obj) : ℝ :=
  match obj.shape with
  | .sphere s => r.intersect_sphere s
  | .hollow_sphere s => r.intersect_sphere s
  | .plane p => r.intersect_plane p
  | .tetrahedron te => r.intersect_tetrahedron te
  | .triangle tr => r.intersect_triangle tr
  | .unknown => -1

/-- The Python exceptions the embedded code can raise: attribute lookups of
functions the repository never defines. -/
inductive PyErr where
  | missingUtilsDistance : PyErr
  | missingShadersHardShadow : PyErr
deriving DecidableEq

/-- Python attribute lookup of `hard_shadow` on the shaders module:
src/shaders.py defines only the four shader functions and its constants, no
`hard_shadow`, so the lookup yields nothing and `shaders.hard_shadow(...)`
raises AttributeError. -/
def shaders_hard_shadow : Option (V3 → List Obj → V3 → ℝ → V3) := none

/-- np.clip on a scalar: raise to `lo`, then cap at `hi`. -/
def clip1 (v lo hi : ℝ) : ℝ := min (max v lo) hi

/-- np.clip on a 3-vector, componentwise. -/
def clip3 (v : V3) (lo hi : ℝ) : V3 := ⟨clip1 v.x lo hi, clip1 v.y lo hi, clip1 v.z lo hi⟩

/-- `.astype(np.uint8)` on values already clipped into `[0,255]`: truncation
toward zero, which on nonnegative values is the floor. -/
def astype_uint8 (v : V3) : V3 := ⟨(⌊v.x⌋ : ℝ), (⌊v.y⌋ : ℝ), (⌊v.z⌋ : ℝ)⟩

/-- np.round on a scalar: round half to even. -/
def np_round1 (v : ℝ) : ℝ :=
  if Int.fract v = 1 / 2 then
    if Even ⌊v⌋ then (⌊v⌋ : ℝ) else (⌊v⌋ : ℝ) + 1
  else (round v : ℤ)

/-- np.round on a 3-vector, componentwise. -/
def np_round3 (v : V3) : V3 := ⟨np_round1 v.x, np_round1 v.y, np_round1 v.z⟩

/-- The per-light loop of compute_color from src/raytrace.py.  `none` models
the early `return np.zeros(3)` taken when the object's normal is undefined
(note the Python loop shadows the name `light` after reading `get_l`, which
changes nothing observable). -/
def color_loop (ph eye : V3) (obj : Obj) : List Light → V3 → Option V3
  | [], final_color => some final_color
  | light :: rest, final_color =>
    let l := light.get_l ph
    match obj.normal_at ph with
    | none => none
    | some nh =>
      let dark := DARK_VALUE * obj.diffuse
      let lightC := LIGHT_VALUE * obj.diffuse
      let color :=
        if obj.shader_type = TYPE_DIFFUSE_LIGHT then
          let c := diffuse_light nh l
          (⟨c, c, c⟩ : V3)
        else if obj.shader_type = TYPE_DIFFUSE_COLORS then
          diffuse_colors nh l dark lightC
        else if obj.shader_type = TYPE_DIFF_SPECULAR then
          diffuse_with_specular nh l eye dark lightC DEFAULT_KS
        else if obj.shader_type = TYPE_DIFF_SPEC_BORDER then
          diffuse_specular_border nh l eye dark lightC DEFAULT_KS DEFAULT_THICKNESS
        else 0
      color_loop ph eye obj rest (final_color + color)

/-- compute_color from src/raytrace.py.  The scalar result of diffuse_light is
broadcast across the three channels by numpy's `+=`. -/
def compute_color (ph eye : V3) (obj : Obj) (lights : List Light) : V3 :=
  match color_loop ph eye obj lights 0 with
  | none => 0
  | some final_color =>
    let final_color := V3.divS final_color (lights.length : ℝ)
    let final_color := clip3 final_color 0 MAX_COLOR_VALUE
    astype_uint8 final_color

/-- The per-light loop of compute_shadow from src/raytrace.py: each iteration
looks up `shaders.hard_shadow`, which src/shaders.py does not define. -/
def shadow_loop (ph : V3) (objects : List Obj) : List Light → V3 → Except PyErr V3
  | [], final_shadow => .ok final_shadow
  | light :: rest, final_shadow =>
    let l := light.get_l ph
    let dist_l := light.get_dist ph
    match shaders_hard_shadow with
    | none => .error .missingShadersHardShadow
    | some hard_shadow =>
      shadow_loop ph objects rest (final_shadow + hard_shadow ph objects l dist_l)

/-- compute_shadow from src/raytrace.py. -/
def compute_shadow (ph : V3) (objects : List Obj) (lights : List Light) :
    Except PyErr V3 :=
  match shadow_loop ph objects lights 0 with
  | .error e => .error e
  | .ok final_shadow =>
    let final_shadow := V3.divS final_shadow (lights.length : ℝ)
    let final_shadow := clip3 final_shadow 0 MAX_COLOR_VALUE
    .ok (astype_uint8 final_shadow)

/-- The closest-intersection loop of raytrace from src/raytrace.py.  The
accumulator holds `(tmin, index, obj_h)`; `none` models the initial
`tmin = np.inf, obj_h = None` state.  The index records where `obj_h` sits so
that Python's identity-based `objects.remove(obj_h)` can be modelled. -/
def closest_aux (ray : Ray) : List Obj → ℕ → Option (ℝ × ℕ × Obj) → Option (ℝ × ℕ × Obj)
  | [], _, acc => acc
  | obj :: rest, k, acc =>
    let t := ray.intersect obj
    let acc2 :=
      match acc with
      | none => if 0 < t then some (t, k, obj) else none
      | some (tmin, j, obj_h) =>
        if 0 < t ∧ t < tmin then some (t, k, obj) else some (tmin, j, obj_h)
    closest_aux ray rest (k + 1) acc2

/-- One step of the closest-intersection loop (the body of `closest_aux`),
named so the loop can be reasoned about stepwise. -/
def closest_step (ray : Ray) (obj : Obj) (k : ℕ)
    (acc : Option (ℝ × ℕ × Obj)) : Option (ℝ × ℕ × Obj) :=
  let t := ray.intersect obj
  match acc with
  | none => if 0 < t then some (t, k, obj) else none
  | some (tmin, j, obj_h) =>
    if 0 < t ∧ t < tmin then some (t, k, obj) else some (tmin, j, obj_h)

/-- The closest hit kept by raytrace, with its position in the object list. -/
def closest_hit (ray : Ray) (objects : List Obj) : Option (ℝ × ℕ × Obj) :=
  closest_aux ray objects 0 none

/-- raytrace from src/raytrace.py.  `objects.remove(obj_h)` removes the first
occurrence equal (by default: identical) to `obj_h`, i.e. the element found by
the loop, modelled by erasing it at its index.  The shadow step can raise (see
`shaders_hard_shadow`), hence the `Except` result; black is returned when no
object is hit. -/
def raytrace (ray : Ray) (camera_pos : V3) (objects : List Obj)
    (lights : List Light) : Except PyErr V3 :=
  match closest_hit ray objects with
  | none => .ok 0
  | some (tmin, i, obj_h) =>
    let ph := ray.at_t tmin
    let eye := normalize (camera_pos - ph)
    let color := compute_color ph eye obj_h lights
    let objects_to_check := objects.eraseIdx i
    match compute_shadow ph objects_to_check lights with
    | .error e => .error e
    | .ok shadow =>
      let final_color := np_round3 (color * V3.divS shadow MAX_COLOR_VALUE)
      .ok (astype_uint8 final_color)

/-! ### src/sky.py -/

/-- Componentwise np.exp on a 3-vector. -/
def exp3 (v : V3) : V3 := ⟨Real.exp v.x, Real.exp v.y, Real.exp v.z⟩

/-- WAVE_LENGTHS from src/sky.py. -/
def WAVE_LENGTHS : V3 := ⟨650, 510, 445⟩

/-- SCATTERING_SCALE from src/sky.py. -/
def SCATTERING_SCALE : ℝ := 1

/-- SCATTERING_COEFFICIENTS from src/sky.py:
`(1 / WAVE_LENGTHS ** 4) * SCATTERING_SCALE`. -/
def SCATTERING_COEFFICIENTS : V3 :=
  SCATTERING_SCALE • (⟨1 / WAVE_LENGTHS.x ^ 4, 1 / WAVE_LENGTHS.y ^ 4, 1 / WAVE_LENGTHS.z ^ 4⟩ : V3)

/-- DENSITY_FALLOFF from src/sky.py. -/
def DENSITY_FALLOFF : ℝ := 4

/-- IN_SCATTER_SAMPLES from src/sky.py. -/
def IN_SCATTER_SAMPLES : ℕ := 10

/-- OPTICAL_DEPTH_SAMPLES from src/sky.py. -/
def OPTICAL_DEPTH_SAMPLES : ℕ := 10

/-- SUN_COLOR from src/sky.py. -/
def SUN_COLOR : V3 := ⟨1289, 1395, 1234⟩

/-- sky.SkyDome state: planet center and radius, sun direction, atmosphere
height and average-density height. -/
structure SkyDome where
  center : V3
  radius : ℝ
  sun_direction : V3
  atmosphere_height : ℝ
  avg_density_height : ℝ

/-- self.planet_obj: `Sphere(center, None, None, radius)` — material and
shader are None and never consulted during intersection. -/
def SkyDome.planet_obj (sky : SkyDome) : Obj :=
  { shape := .sphere ⟨sky.center, sky.radius⟩
    normal_at := fun _ => none
    diffuse := 0
    shader_type := "" }

/-- self.atmosphere_obj:
`HollowSphere(center, None, None, radius + atmosphere_height)`. -/
def SkyDome.atmosphere_obj (sky : SkyDome) : Obj :=
  { shape := .hollow_sphere ⟨sky.center, sky.radius + sky.atmosphere_height⟩
    normal_at := fun _ => none
    diffuse := 0
    shader_type := "" }

/-- SkyDome.phase_function from src/sky.py. -/
def phase_function (v1 v2 : V3) : ℝ := (3 / 4) * (1 + dot v1 v2 ^ 2)

/-- Python attribute lookup of `distance` on the utils module: src/utils.py
defines only normalize, humanize_time and degree2radians, so the lookup
yields nothing and `utils.distance(...)` raises AttributeError. -/
def utils_distance : Option (V3 → V3 → ℝ) := none

/-- Modelled from the spec: the Euclidean distance the spec's density formula
means by `distance(p, center)` (the repository itself never defines
`utils.distance`). -/
def distance_spec (p q : V3) : ℝ := Real.sqrt (dot (p - q) (p - q))

/-- Body of SkyDome.density_at_point from src/sky.py, parametric in the
`distance` function the utils module fails to provide. -/
def density_body (dist : V3 → V3 → ℝ) (sky : SkyDome) (p : V3) : ℝ :=
  let height := dist p sky.center - sky.radius
  let normalized_height := height / sky.atmosphere_height
  Real.exp (-normalized_height * DENSITY_FALLOFF) * (1 - normalized_height)

/-- The density formula as a function of the normalized height alone. -/
def density_of_normalized_height (nh : ℝ) : ℝ :=
  Real.exp (-nh * DENSITY_FALLOFF) * (1 - nh)

/-- SkyDome.density_at_point from src/sky.py: the first expression evaluated
is `utils.distance(p, self.center)`, whose attribute lookup fails. -/
def SkyDome.density_at_point (sky : SkyDome) (p : V3) : Except PyErr ℝ :=
  match utils_distance with
  | none => .error .missingUtilsDistance
  | some dist => .ok (density_body dist sky p)

/-- The body of the optical-depth quadrature loop (one sample `i` of
src/sky.py's optical_depth), named so the loop can be reasoned about
stepwise. -/
def od_step (density : V3 → Except PyErr ℝ) (p direction : V3) (distance : ℝ)
    (randoms : ℕ → ℝ) (num_samples : ℕ) (optical_depth : ℝ) (i : ℕ) :
    Except PyErr ℝ := do
  let current_distance := ((i : ℝ) + randoms i) * (distance / (num_samples : ℝ))
  let sample_point := p + current_distance • direction
  let sample_density ← density sample_point
  pure (optical_depth + sample_density * current_distance)

/-- SkyDome.optical_depth from src/sky.py, parametric in the density query
(`self.density_at_point` in the source).  `randoms` models the vector drawn by
`np.random.random_sample(num_samples)`. -/
def optical_depth_core (density : V3 → Except PyErr ℝ) (p direction : V3)
    (distance : ℝ) (randoms : ℕ → ℝ) (num_samples : ℕ) : Except PyErr ℝ :=
  (List.range num_samples).foldlM
    (od_step density p direction distance randoms num_samples) 0

/-- SkyDome.optical_depth with its own density query. -/
def SkyDome.optical_depth (sky : SkyDome) (p direction : V3) (distance : ℝ)
    (randoms : ℕ → ℝ) (num_samples : ℕ) : Except PyErr ℝ :=
  optical_depth_core sky.density_at_point p direction distance randoms num_samples

/-- SkyDome.out_scattering from src/sky.py, parametric in the density query:
`4 * np.pi * SCATTERING_COEFFICIENTS * optical_depth`. -/
def out_scattering_core (density : V3 → Except PyErr ℝ) (p direction : V3)
    (distance : ℝ) (randoms : ℕ → ℝ) (num_samples : ℕ) : Except PyErr V3 := do
  let optical_depth ← optical_depth_core density p direction distance randoms num_samples
  pure ((4 * Real.pi * optical_depth) • SCATTERING_COEFFICIENTS)

/-- SkyDome.out_scattering with its own density query. -/
def SkyDome.out_scattering (sky : SkyDome) (p direction : V3) (distance : ℝ)
    (randoms : ℕ → ℝ) (num_samples : ℕ) : Except PyErr V3 :=
  out_scattering_core sky.density_at_point p direction distance randoms num_samples

/-- SkyDome.in_scattering from src/sky.py, parametric in the density query.
`randoms` models the per-call jitter vector; `sun_randoms i` and
`view_randoms i` model the fresh vectors drawn inside the two out_scattering
calls of view sample `i`. -/
def in_scattering_core (density : V3 → Except PyErr ℝ) (sky : SkyDome) (r : Ray)
    (randoms : ℕ → ℝ) (sun_randoms view_randoms : ℕ → ℕ → ℝ)
    (view_samples : ℕ) : Except PyErr V3 := do
  let dist_to_atmosphere := r.intersect sky.atmosphere_obj
  let transmittance ← (List.range view_samples).foldlM
    (fun transmittance (i : ℕ) => do
      let distance := (dist_to_atmosphere / (view_samples : ℝ)) * ((i : ℝ) + randoms i)
      let sample_point := r.at_t distance
      let sun_ray : Ray := ⟨sample_point, sky.sun_direction⟩
      let t_to_atmosphere := sun_ray.intersect sky.atmosphere_obj
      let t_to_planet := sun_ray.intersect sky.planet_obj
      if 0 < t_to_planet ∧ t_to_planet < t_to_atmosphere then
        pure transmittance
      else do
        let out_sun ← out_scattering_core density sun_ray.pr sun_ray.nr
          t_to_atmosphere (sun_randoms i) OPTICAL_DEPTH_SAMPLES
        let out_view ← out_scattering_core density sample_point (-r.nr)
          distance (view_randoms i) OPTICAL_DEPTH_SAMPLES
        let current_density ← density sample_point
        pure (transmittance +
          (current_density * distance * phase_function sun_ray.nr (-r.nr)) •
            exp3 (-(out_sun + out_view))))
    0
  pure (SUN_COLOR * SCATTERING_COEFFICIENTS * transmittance)

/-- SkyDome.in_scattering with its own density query. -/
def SkyDome.in_scattering (sky : SkyDome) (r : Ray) (randoms : ℕ → ℝ)
    (sun_randoms view_randoms : ℕ → ℕ → ℝ) (view_samples : ℕ) : Except PyErr V3 :=
  in_scattering_core sky.density_at_point sky r randoms sun_randoms view_randoms view_samples

/-- The body of light_at_ray's sampling loop (one view sample `i` of
src/sky.py's light_at_ray), named so the loop can be reasoned about
stepwise.  `dist_to_atmosphere` is recomputed here rather than threaded in:
the intersection is pure, so the value is the same one light_at_ray computes
before its loop. -/
def light_sample_step (density : V3 → Except PyErr ℝ) (sky : SkyDome) (r : Ray)
    (randoms : ℕ → ℝ) (sun_randoms view_randoms : ℕ → ℕ → ℝ)
    (view_samples : ℕ) (light : V3) (i : ℕ) : Except PyErr V3 := do
  let dist_to_atmosphere := r.intersect sky.atmosphere_obj
  let distance := (dist_to_atmosphere / (view_samples : ℝ)) * ((i : ℝ) + randoms i)
  let sample_point := r.at_t distance
  let sun_ray : Ray := ⟨sample_point, sky.sun_direction⟩
  let t_to_atmosphere := sun_ray.intersect sky.atmosphere_obj
  let t_to_planet := sun_ray.intersect sky.planet_obj
  if 0 < t_to_planet ∧ t_to_planet < t_to_atmosphere then
    pure light
  else do
    let sun_ray_optical_depth ← optical_depth_core density sun_ray.pr
      sun_ray.nr t_to_atmosphere (sun_randoms i) OPTICAL_DEPTH_SAMPLES
    let view_ray_optical_depth ← optical_depth_core density sample_point
      (-r.nr) distance (view_randoms i) OPTICAL_DEPTH_SAMPLES
    let transmittance := exp3
      (-((sun_ray_optical_depth + view_ray_optical_depth) • SCATTERING_COEFFICIENTS))
    let segment_size := (dist_to_atmosphere / (view_samples : ℝ)) * randoms i
    let sample_density ← density sample_point
    pure (light + (sample_density * segment_size) • transmittance)

/-- SkyDome.light_at_ray from src/sky.py, parametric in the density query.
Sample `i` adds `sample_density * segment_size * transmittance` with
`segment_size = (dist_to_atmosphere / view_samples) * randoms[i]`; the two
optical-depth calls use the default OPTICAL_DEPTH_SAMPLES. -/
def light_at_ray_core (density : V3 → Except PyErr ℝ) (sky : SkyDome) (r : Ray)
    (randoms : ℕ → ℝ) (sun_randoms view_randoms : ℕ → ℕ → ℝ)
    (view_samples : ℕ) : Except PyErr V3 := do
  let light ← (List.range view_samples).foldlM
    (light_sample_step density sky r randoms sun_randoms view_randoms view_samples) 0
  let light := light * SCATTERING_COEFFICIENTS
  let light := V3.divS light sky.radius
  pure (clip3 light 0 1)

/-- SkyDome.light_at_ray with its own density query. -/
def SkyDome.light_at_ray (sky : SkyDome) (r : Ray) (randoms : ℕ → ℝ)
    (sun_randoms view_randoms : ℕ → ℕ → ℝ) (view_samples : ℕ) : Except PyErr V3 :=
  light_at_ray_core sky.density_at_point sky r randoms sun_randoms view_randoms view_samples

/-! ### Closed forms for the in-scattering loop (specification side) -/

/-- Sum of the first `n` values of a vector-valued sequence. -/
def sumV3 (f : ℕ → V3) : ℕ → V3
  | 0 => 0
  | n + 1 => sumV3 f n + f n

/-- Closed form of the optical-depth quadrature for a total density function:
sample `i` lies at the jittered distance `(i + randoms i) * (distance / n)`
and is weighted by that same distance. -/
def od_sum (df : V3 → ℝ) (p direction : V3) (distance : ℝ) (randoms : ℕ → ℝ)
    (num_samples : ℕ) : ℝ :=
  ∑ i ∈ Finset.range num_samples,
    df (p + (((i : ℝ) + randoms i) * (distance / (num_samples : ℝ))) • direction) *
      (((i : ℝ) + randoms i) * (distance / (num_samples : ℝ)))

/-- The transmittance factor of view sample `i` of the in-scattering loop,
for a total density function. -/
def sample_transmittance (df : V3 → ℝ) (sky : SkyDome) (r : Ray)
    (randoms : ℕ → ℝ) (sun_randoms view_randoms : ℕ → ℕ → ℝ)
    (view_samples : ℕ) (i : ℕ) : V3 :=
  let distance := (r.intersect sky.atmosphere_obj / (view_samples : ℝ)) * ((i : ℝ) + randoms i)
  let sample_point := r.at_t distance
  let sun_ray : Ray := ⟨sample_point, sky.sun_direction⟩
  exp3 (-((od_sum df sun_ray.pr sun_ray.nr (sun_ray.intersect sky.atmosphere_obj)
          (sun_randoms i) OPTICAL_DEPTH_SAMPLES +
        od_sum df sample_point (-r.nr) distance (view_randoms i) OPTICAL_DEPTH_SAMPLES) •
      SCATTERING_COEFFICIENTS))

/-- The contribution of view sample `i` to the in-scattering accumulator,
with the sample weight left as a parameter `w`: zero when the sun ray is
blocked by the planet, `density · transmittance · w i` otherwise. -/
def sample_term (df : V3 → ℝ) (sky : SkyDome) (r : Ray) (randoms : ℕ → ℝ)
    (sun_randoms view_randoms : ℕ → ℕ → ℝ) (view_samples : ℕ)
    (w : ℕ → ℝ) (i : ℕ) : V3 :=
  let distance := (r.intersect sky.atmosphere_obj / (view_samples : ℝ)) * ((i : ℝ) + randoms i)
  let sample_point := r.at_t distance
  let sun_ray : Ray := ⟨sample_point, sky.sun_direction⟩
  if 0 < sun_ray.intersect sky.planet_obj ∧
      sun_ray.intersect sky.planet_obj < sun_ray.intersect sky.atmosphere_obj then 0
  else
    (df sample_point * w i) •
      sample_transmittance df sky r randoms sun_randoms view_randoms view_samples i

/-- The sample weight src/sky.py actually uses in light_at_ray:
`segment_size = (dist_to_atmosphere / view_samples) * randoms[i]`. -/
def code_weight (sky : SkyDome) (r : Ray) (randoms : ℕ → ℝ)
    (view_samples : ℕ) (i : ℕ) : ℝ :=
  (r.intersect sky.atmosphere_obj / (view_samples : ℝ)) * randoms i

/-- The sample weight claim C5 asserts, the jittered-distance convention of
the optical-depth quadrature: `(i + randoms[i]) * segmentLength / N`. -/
def claimed_weight (sky : SkyDome) (r : Ray) (randoms : ℕ → ℝ)
    (view_samples : ℕ) (i : ℕ) : ℝ :=
  (r.intersect sky.atmosphere_obj / (view_samples : ℝ)) * ((i : ℝ) + randoms i)

/-- Modelled from the spec's words (claim C5), for comparison with the code:
the normalized sky-color integral in which each non-shadowed sample `i`
contributes `density(sample) · exp(−(sunOD + viewOD)·coeffs) · segmentWeight`
with the segment weight following the optical-depth jittered-distance
convention `(i + uniformRandom) · segmentLength/N`; the postprocessing
(scale by coefficients, normalize by planet radius, clamp) is that of
light_at_ray. -/
def light_at_ray_claim_formula (df : V3 → ℝ) (sky : SkyDome) (r : Ray)
    (randoms : ℕ → ℝ) (sun_randoms view_randoms : ℕ → ℕ → ℝ)
    (view_samples : ℕ) : V3 :=
  clip3
    (V3.divS
      (sumV3
        (sample_term df sky r randoms sun_randoms view_randoms view_samples
          (claimed_weight sky r randoms view_samples)) view_samples *
        SCATTERING_COEFFICIENTS)
      sky.radius) 0 1

/-- A concrete sky dome for evaluating the in-scattering loop: unit planet at
the origin, atmosphere height 1, sun along +z. -/
def cex_sky : SkyDome := ⟨0, 1, ⟨0, 0, 1⟩, 1, 1⟩

/-- A concrete view ray for evaluating the in-scattering loop: from
`(0,0,-4)` along `+z`, entering the atmosphere shell at distance 2. -/
def cex_ray : Ray := ⟨⟨0, 0, -4⟩, ⟨0, 0, 1⟩⟩

/-- A concrete total density oracle (constantly 1) standing in for the
unrunnable SkyDome.density_at_point. -/
def cex_density : V3 → ℝ := fun _ => 1

/-- A concrete scene object (the example sphere) used in witnesses. -/
def wit_obj : Obj :=
  { shape := Shape.sphere ⟨⟨0, 0, 100⟩, 25⟩, normal_at := fun _ => none,
    diffuse := ⟨1, 1, 1⟩, shader_type := TYPE_DIFFUSE_COLORS }

/-- A concrete light used in witnesses. -/
def wit_light : Light := { get_l := fun _ => ⟨0, 0, 1⟩, get_dist := fun _ => 1 }

/-! ### Helper lemmas -/

theorem V3.eq_iff (a b : V3) : a = b ↔ a.x = b.x ∧ a.y = b.y ∧ a.z = b.z := by
  constructor
  · intro h
    exact ⟨congrArg V3.x h, congrArg V3.y h, congrArg V3.z h⟩
  · intro h
    cases a
    cases b
    simp only at h
    simp [h.1, h.2.1, h.2.2]

@[simp] theorem V3.add_x (a b : V3) : (a + b).x = a.x + b.x := rfl

@[simp] theorem V3.add_y (a b : V3) : (a + b).y = a.y + b.y := rfl

@[simp] theorem V3.add_z (a b : V3) : (a + b).z = a.z + b.z := rfl

@[simp] theorem V3.sub_x (a b : V3) : (a - b).x = a.x - b.x := rfl

@[simp] theorem V3.sub_y (a b : V3) : (a - b).y = a.y - b.y := rfl

@[simp] theorem V3.sub_z (a b : V3) : (a - b).z = a.z - b.z := rfl

@[simp] theorem V3.neg_x (a : V3) : (-a).x = -a.x := rfl

@[simp] theorem V3.neg_y (a : V3) : (-a).y = -a.y := rfl

@[simp] theorem V3.neg_z (a : V3) : (-a).z = -a.z := rfl

@[simp] theorem V3.mul_x (a b : V3) : (a * b).x = a.x * b.x := rfl

@[simp] theorem V3.mul_y (a b : V3) : (a * b).y = a.y * b.y := rfl

@[simp] theorem V3.mul_z (a b : V3) : (a * b).z = a.z * b.z := rfl

@[simp] theorem V3.smul_x (c : ℝ) (a : V3) : (c • a).x = c * a.x := rfl

@[simp] theorem V3.smul_y (c : ℝ) (a : V3) : (c • a).y = c * a.y := rfl

@[simp] theorem V3.smul_z (c : ℝ) (a : V3) : (c • a).z = c * a.z := rfl

@[simp] theorem V3.zero_x : (0 : V3).x = 0 := rfl

@[simp] theorem V3.zero_y : (0 : V3).y = 0 := rfl

@[simp] theorem V3.zero_z : (0 : V3).z = 0 := rfl

@[simp] theorem V3.divS_x (v : V3) (c : ℝ) : (v.divS c).x = v.x / c := rfl

@[simp] theorem V3.divS_y (v : V3) (c : ℝ) : (v.divS c).y = v.y / c := rfl

@[simp] theorem V3.divS_z (v : V3) (c : ℝ) : (v.divS c).z = v.z / c := rfl

@[simp] theorem exp3_x (v : V3) : (exp3 v).x = Real.exp v.x := rfl

@[simp] theorem exp3_y (v : V3) : (exp3 v).y = Real.exp v.y := rfl

@[simp] theorem exp3_z (v : V3) : (exp3 v).z = Real.exp v.z := rfl

@[simp] theorem clip3_x (v : V3) (lo hi : ℝ) : (clip3 v lo hi).x = clip1 v.x lo hi := rfl

@[simp] theorem clip3_y (v : V3) (lo hi : ℝ) : (clip3 v lo hi).y = clip1 v.y lo hi := rfl

@[simp] theorem clip3_z (v : V3) (lo hi : ℝ) : (clip3 v lo hi).z = clip1 v.z lo hi := rfl

theorem V3.zero_add (a : V3) : 0 + a = a := by
  rw [V3.eq_iff]
  simp

theorem clip1_of_le (v lo hi : ℝ) (h1 : lo ≤ v) (h2 : v ≤ hi) : clip1 v lo hi = v := by
  rw [clip1, max_eq_left h1, min_eq_left h2]

/-- Evaluate a square root at a perfect square. -/
theorem sqrt_eval {a b : ℝ} (hb : 0 ≤ b) (h : b ^ 2 = a) : Real.sqrt a = b := by
  rw [← h]
  exact Real.sqrt_sq hb

/-- Expansion of the squared distance from a ray point to a fixed point. -/
theorem dot_ray_expand (r : Ray) (q : V3) (s : ℝ) :
    dot (r.at_t s - q) (r.at_t s - q) =
      dot (r.pr - q) (r.pr - q) + 2 * s * dot r.nr (r.pr - q) + s ^ 2 * dot r.nr r.nr := by
  simp only [Ray.at_t, dot, V3.add_x, V3.add_y, V3.add_z, V3.sub_x, V3.sub_y, V3.sub_z,
    V3.smul_x, V3.smul_y, V3.smul_z]
  ring

/-! ### Claim theorems -/

/-- Claim C7: for every ray and plane, with `d = dot(rayDir, planeNormal)`:
if `d = 0` the plane intersection returns 0 when the ray origin lies in the
plane and -1 otherwise; if `d ≠ 0` it returns
`t = dot(planePoint − rayOrigin, planeNormal) / d` when `t ≥ 0`, and -1 when
`t < 0`. -/
theorem intersect_plane_cases (r : Ray) (plane : Plane) :
    (dot r.nr plane.n = 0 → dot (plane.position - r.pr) plane.n = 0 →
      r.intersect_plane plane = 0) ∧
    (dot r.nr plane.n = 0 → dot (plane.position - r.pr) plane.n ≠ 0 →
      r.intersect_plane plane = -1) ∧
    (dot r.nr plane.n ≠ 0 → 0 ≤ dot (plane.position - r.pr) plane.n / dot r.nr plane.n →
      r.intersect_plane plane = dot (plane.position - r.pr) plane.n / dot r.nr plane.n) ∧
    (dot r.nr plane.n ≠ 0 → dot (plane.position - r.pr) plane.n / dot r.nr plane.n < 0 →
      r.intersect_plane plane = -1) := by
  refine ⟨?_, ?_, ?_, ?_⟩
  · intro h1 h2
    simp only [Ray.intersect_plane, if_pos h1, if_pos h2]
  · intro h1 h2
    simp only [Ray.intersect_plane, if_pos h1, if_neg h2]
  · intro h1 h2
    simp only [Ray.intersect_plane, if_neg h1, if_neg (not_lt.mpr h2)]
  · intro h1 h2
    simp only [Ray.intersect_plane, if_neg h1, if_pos h2]

/-- Witness for C7, on the spec's own plane example: origin `(0,0,0)`,
direction `(0,-1,0)`, plane through `(0,-25,0)` with normal `(0,1,0)` gives
`t = 25`, and the opposite direction `(0,1,0)` gives -1. -/
theorem intersect_plane_cases_witness :
    (Ray.mk ⟨0, 0, 0⟩ ⟨0, -1, 0⟩).intersect_plane ⟨⟨0, -25, 0⟩, ⟨0, 1, 0⟩⟩ = 25 ∧
    (Ray.mk ⟨0, 0, 0⟩ ⟨0, 1, 0⟩).intersect_plane ⟨⟨0, -25, 0⟩, ⟨0, 1, 0⟩⟩ = -1 := by
  constructor
  · have h := (intersect_plane_cases (Ray.mk ⟨0, 0, 0⟩ ⟨0, -1, 0⟩)
      ⟨⟨0, -25, 0⟩, ⟨0, 1, 0⟩⟩).2.2.1
    simp only [dot, V3.sub_x, V3.sub_y, V3.sub_z] at h
    norm_num at h
    exact h
  · have h := (intersect_plane_cases (Ray.mk ⟨0, 0, 0⟩ ⟨0, 1, 0⟩)
      ⟨⟨0, -25, 0⟩, ⟨0, 1, 0⟩⟩).2.2.2
    simp only [dot, V3.sub_x, V3.sub_y, V3.sub_z] at h
    norm_num at h
    exact h

/-- Claim C8: the triangle intersection first intersects the supporting
plane, evaluates the hit point there, computes barycentric coordinates
`(s, t)`, and returns the plane's parameter exactly when `s ∈ [0,1]`,
`t ∈ [0,1]` and `s + t ∈ [0,1]`; outside that region it returns -1 even
though the supporting-plane intersection succeeded. -/
theorem intersect_triangle_cases (r : Ray) (triangle : Triangle) (s t : ℝ)
    (hst : triangle.get_barycentric_coord
      (r.at_t (r.intersect_plane ⟨triangle.position, triangle.n⟩)) = (s, t)) :
    (0 ≤ s ∧ s ≤ 1 ∧ 0 ≤ t ∧ t ≤ 1 ∧ 0 ≤ s + t ∧ s + t ≤ 1 →
      r.intersect_triangle triangle = r.intersect_plane ⟨triangle.position, triangle.n⟩) ∧
    (¬(0 ≤ s ∧ s ≤ 1 ∧ 0 ≤ t ∧ t ≤ 1 ∧ 0 ≤ s + t ∧ s + t ≤ 1) →
      r.intersect_triangle triangle = -1) := by
  constructor
  · intro h
    simp only [Ray.intersect_triangle, hst]
    rw [if_neg]
    push_neg
    tauto
  · intro h
    simp only [Ray.intersect_triangle, hst]
    rw [if_pos]
    by_contra hcon
    push_neg at hcon
    tauto

/-- Witness for C8: a triangle whose barycentric query puts the hit point at
`(1/3, 1/3)` is accepted at the supporting-plane parameter, and one whose
query answers `(2, 0)` is rejected with -1 although the supporting-plane
intersection succeeds (here with parameter 5). -/
theorem intersect_triangle_cases_witness :
    (Ray.mk ⟨0, 0, 0⟩ ⟨0, 0, 1⟩).intersect_triangle
      ⟨⟨0, 0, 5⟩, ⟨0, 0, 1⟩, fun _ => (1 / 3, 1 / 3)⟩ = 5 ∧
    (Ray.mk ⟨0, 0, 0⟩ ⟨0, 0, 1⟩).intersect_triangle
      ⟨⟨0, 0, 5⟩, ⟨0, 0, 1⟩, fun _ => (2, 0)⟩ = -1 := by
  have hplane : (Ray.mk ⟨0, 0, 0⟩ ⟨0, 0, 1⟩).intersect_plane ⟨⟨0, 0, 5⟩, ⟨0, 0, 1⟩⟩ = 5 := by
    simp only [Ray.intersect_plane, dot, V3.sub_x, V3.sub_y, V3.sub_z]
    norm_num
  constructor
  · have h := (intersect_triangle_cases (Ray.mk ⟨0, 0, 0⟩ ⟨0, 0, 1⟩)
      ⟨⟨0, 0, 5⟩, ⟨0, 0, 1⟩, fun _ => (1 / 3, 1 / 3)⟩ (1 / 3) (1 / 3) rfl).1
      (by norm_num)
    rw [h, hplane]
  · exact (intersect_triangle_cases (Ray.mk ⟨0, 0, 0⟩ ⟨0, 0, 1⟩)
      ⟨⟨0, 0, 5⟩, ⟨0, 0, 1⟩, fun _ => (2, 0)⟩ 2 0 rfl).2 (by norm_num)

theorem sqrt_625 : Real.sqrt 625 = 25 := sqrt_eval (by norm_num) (by norm_num)

theorem sqrt_100 : Real.sqrt 100 = 10 := sqrt_eval (by norm_num) (by norm_num)

theorem isect_75 :
    (Ray.mk ⟨0, 0, 0⟩ ⟨0, 0, 1⟩).intersect_sphere ⟨⟨0, 0, 100⟩, 25⟩ = 75 := by
  simp only [Ray.intersect_sphere, dot, V3.sub_x, V3.sub_y, V3.sub_z]
  norm_num [sqrt_625]

theorem isect_90 :
    (Ray.mk ⟨0, 0, 0⟩ ⟨0, 0, 1⟩).intersect_sphere ⟨⟨0, 0, 100⟩, 10⟩ = 90 := by
  simp only [Ray.intersect_sphere, dot, V3.sub_x, V3.sub_y, V3.sub_z]
  norm_num [sqrt_100]

theorem isect_away_25 :
    (Ray.mk ⟨0, 0, 0⟩ ⟨0, 0, -1⟩).intersect_sphere ⟨⟨0, 0, 100⟩, 25⟩ = -1 := by
  simp only [Ray.intersect_sphere, dot, V3.sub_x, V3.sub_y, V3.sub_z]
  norm_num

theorem isect_away_10 :
    (Ray.mk ⟨0, 0, 0⟩ ⟨0, 0, -1⟩).intersect_sphere ⟨⟨0, 0, 100⟩, 10⟩ = -1 := by
  simp only [Ray.intersect_sphere, dot, V3.sub_x, V3.sub_y, V3.sub_z]
  norm_num

/-- Claim C10: a ray from the origin along `(0,0,1)` meets the sphere at
`(0,0,100)` of radius 25 at `t = 75` and the one of radius 10 at `t = 90`;
the ray along `(0,0,-1)` misses both (sentinel -1). -/
theorem intersect_sphere_examples :
    (Ray.mk ⟨0, 0, 0⟩ ⟨0, 0, 1⟩).intersect_sphere ⟨⟨0, 0, 100⟩, 25⟩ = 75 ∧
    (Ray.mk ⟨0, 0, 0⟩ ⟨0, 0, 1⟩).intersect_sphere ⟨⟨0, 0, 100⟩, 10⟩ = 90 ∧
    (Ray.mk ⟨0, 0, 0⟩ ⟨0, 0, -1⟩).intersect_sphere ⟨⟨0, 0, 100⟩, 25⟩ = -1 ∧
    (Ray.mk ⟨0, 0, 0⟩ ⟨0, 0, -1⟩).intersect_sphere ⟨⟨0, 0, 100⟩, 10⟩ = -1 :=
  ⟨isect_75, isect_90, isect_away_25, isect_away_10⟩

/-- Claim C1: the sphere intersection computes `b = dot(D, O−C)` and
`c = |O−C|² − r²`, takes the sentinel branch exactly on `b > 0` or
`b² − c < 0`, and otherwise returns the near root `−b − sqrt(b² − c)`; under
the stated contract (ray origin strictly outside the sphere, `0 < c`) the
returned value is -1 exactly on that condition, and any other returned value
is strictly positive and — for a unit direction — is the smallest strictly
positive parameter at which the ray meets the sphere surface. -/
theorem intersect_sphere_contract (r : Ray) (sphere : Sphere) (b c : ℝ)
    (hb : b = dot r.nr (r.pr - sphere.position))
    (hc : c = dot (r.pr - sphere.position) (r.pr - sphere.position) - sphere.radius ^ 2) :
    (b > 0 ∨ b ^ 2 - c < 0 → r.intersect_sphere sphere = -1) ∧
    (¬(b > 0 ∨ b ^ 2 - c < 0) →
      r.intersect_sphere sphere = -b - Real.sqrt (b ^ 2 - c)) ∧
    (0 < c →
      (r.intersect_sphere sphere = -1 ↔ (b > 0 ∨ b ^ 2 - c < 0)) ∧
      (r.intersect_sphere sphere ≠ -1 →
        0 < r.intersect_sphere sphere ∧
        (dot r.nr r.nr = 1 →
          dot (r.at_t (r.intersect_sphere sphere) - sphere.position)
              (r.at_t (r.intersect_sphere sphere) - sphere.position) =
            sphere.radius ^ 2 ∧
          ∀ s, 0 < s → s < r.intersect_sphere sphere →
            dot (r.at_t s - sphere.position) (r.at_t s - sphere.position) ≠
              sphere.radius ^ 2))) := by
  have hT : r.intersect_sphere sphere =
      if b > 0 ∨ b ^ 2 - c < 0 then -1 else -1 * b - Real.sqrt (b ^ 2 - c) := by
    rw [hb, hc]
    rfl
  have hdd : dot (r.pr - sphere.position) (r.pr - sphere.position) =
      c + sphere.radius ^ 2 := by
    rw [hc]
    ring
  refine ⟨fun h => by rw [hT, if_pos h], fun h => by rw [hT, if_neg h]; ring, ?_⟩
  intro hc0
  have key : ¬(b > 0 ∨ b ^ 2 - c < 0) → 0 < r.intersect_sphere sphere := by
    intro h
    push_neg at h
    obtain ⟨hb0, hd0⟩ := h
    have hbneg : b < 0 := by
      rcases lt_or_eq_of_le hb0 with h1 | h1
      · exact h1
      · exfalso
        rw [← h1] at hd0
        nlinarith
    have hlt : Real.sqrt (b ^ 2 - c) < -b := by
      have h1 : Real.sqrt (b ^ 2 - c) < Real.sqrt (b ^ 2) := by
        apply Real.sqrt_lt_sqrt hd0
        linarith
      rw [Real.sqrt_sq_eq_abs, abs_of_neg hbneg] at h1
      exact h1
    rw [hT, if_neg]
    · linarith
    · push_neg
      exact ⟨hb0, hd0⟩
  refine ⟨⟨?_, fun h => by rw [hT, if_pos h]⟩, ?_⟩
  · intro h1
    by_contra h2
    have h3 := key h2
    rw [h1] at h3
    norm_num at h3
  · intro hne
    have hcond : ¬(b > 0 ∨ b ^ 2 - c < 0) := fun h => hne (by rw [hT, if_pos h])
    refine ⟨key hcond, ?_⟩
    intro hunit
    have hcond2 := hcond
    push_neg at hcond2
    obtain ⟨hb0, hd0⟩ := hcond2
    have hsq : Real.sqrt (b ^ 2 - c) ^ 2 = b ^ 2 - c := Real.sq_sqrt hd0
    have hsnn : (0 : ℝ) ≤ Real.sqrt (b ^ 2 - c) := Real.sqrt_nonneg _
    have hTv : r.intersect_sphere sphere = -1 * b - Real.sqrt (b ^ 2 - c) := by
      rw [hT, if_neg hcond]
    constructor
    · rw [dot_ray_expand, hunit, ← hb, hdd, hTv]
      linear_combination hsq
    · intro s hs1 hs2 heq
      rw [dot_ray_expand, hunit, ← hb, hdd] at heq
      have hroot : (s + b) ^ 2 = b ^ 2 - c := by linear_combination heq
      rw [hTv] at hs2
      have h2 : Real.sqrt (b ^ 2 - c) < -(s + b) := by linarith
      nlinarith [hsq, hroot, h2, hsnn]

/-- Witness for C1: the ray from the origin along `(0,0,1)` against the
sphere at `(0,0,100)` of radius 25: the origin is outside (`c = 9375 > 0`)
and the returned value is not the sentinel, so it is strictly positive. -/
theorem intersect_sphere_contract_witness :
    (0 : ℝ) < 9375 ∧
    (Ray.mk ⟨0, 0, 0⟩ ⟨0, 0, 1⟩).intersect_sphere ⟨⟨0, 0, 100⟩, 25⟩ ≠ -1 ∧
    0 < (Ray.mk ⟨0, 0, 0⟩ ⟨0, 0, 1⟩).intersect_sphere ⟨⟨0, 0, 100⟩, 25⟩ := by
  have h := intersect_sphere_contract (Ray.mk ⟨0, 0, 0⟩ ⟨0, 0, 1⟩)
    ⟨⟨0, 0, 100⟩, 25⟩ (-100) 9375
    (by simp only [dot, V3.sub_x, V3.sub_y, V3.sub_z]; norm_num)
    (by simp only [dot, V3.sub_x, V3.sub_y, V3.sub_z]; norm_num)
  have hne : (Ray.mk ⟨0, 0, 0⟩ ⟨0, 0, 1⟩).intersect_sphere ⟨⟨0, 0, 100⟩, 25⟩ ≠ -1 := by
    rw [isect_75]
    norm_num
  exact ⟨by norm_num, hne, ((h.2.2 (by norm_num)).2 hne).1⟩

/-- Claim C6: if the hit primitive's normal query returns None while some
light is being shaded, compute_color returns black `(0,0,0)` for the whole
pixel — all lights' contributions are zeroed — and, the function being total,
no exception is raised. -/
theorem compute_color_none_normal (ph eye : V3) (obj : Obj) (lights : List Light)
    (hl : lights ≠ []) (hn : obj.normal_at ph = none) :
    compute_color ph eye obj lights = 0 := by
  cases lights with
  | nil => exact absurd rfl hl
  | cons light rest =>
    simp only [compute_color, color_loop, hn]

/-- Witness for C6: a concrete object whose normal query is undefined and one
concrete light give the black pixel. -/
theorem compute_color_none_normal_witness :
    compute_color ⟨0, 0, 0⟩ ⟨0, 0, 1⟩
      { shape := Shape.unknown, normal_at := fun _ => none, diffuse := ⟨1, 1, 1⟩,
        shader_type := TYPE_DIFFUSE_COLORS }
      [{ get_l := fun _ => ⟨0, 0, 1⟩, get_dist := fun _ => 1 }] = 0 :=
  compute_color_none_normal _ _ _ _ (by simp) rfl

theorem compute_shadow_err (ph : V3) (objects : List Obj) (light : Light)
    (rest : List Light) :
    compute_shadow ph objects (light :: rest) = .error .missingShadersHardShadow := by
  simp only [compute_shadow, shadow_loop, shaders_hard_shadow]

/-- Claim C2: `shaders.hard_shadow` is not defined in the shaders module, so
whenever there is a light to process the shadow step fails with that
attribute error, and the hit branch of raytrace propagates the error instead
of returning an RGB triple. -/
theorem raytrace_hit_errors :
    shaders_hard_shadow = none ∧
    (∀ (ph : V3) (objects : List Obj) (lights : List Light), lights ≠ [] →
      compute_shadow ph objects lights = .error .missingShadersHardShadow) ∧
    (∀ (ray : Ray) (camera_pos : V3) (objects : List Obj) (lights : List Light)
      (t : ℝ) (i : ℕ) (obj_h : Obj), lights ≠ [] →
      closest_hit ray objects = some (t, i, obj_h) →
      raytrace ray camera_pos objects lights = .error .missingShadersHardShadow) := by
  refine ⟨rfl, ?_, ?_⟩
  · intro ph objects lights hl
    cases lights with
    | nil => exact absurd rfl hl
    | cons light rest => exact compute_shadow_err ph objects light rest
  · intro ray camera_pos objects lights t i obj_h hl hch
    cases lights with
    | nil => exact absurd rfl hl
    | cons light rest =>
      simp only [raytrace, hch, compute_shadow_err]

theorem wit_obj_isect :
    (Ray.mk ⟨0, 0, 0⟩ ⟨0, 0, 1⟩).intersect wit_obj = 75 := by
  simp only [Ray.intersect, wit_obj]
  exact isect_75

theorem wit_closest_hit :
    closest_hit (Ray.mk ⟨0, 0, 0⟩ ⟨0, 0, 1⟩) [wit_obj] = some (75, 0, wit_obj) := by
  simp only [closest_hit, closest_aux, wit_obj_isect]
  norm_num

/-- Witness for C2: a scene with one sphere hit at `t = 75` and one light;
raytrace fails with the missing-attribute error. -/
theorem raytrace_hit_errors_witness :
    raytrace (Ray.mk ⟨0, 0, 0⟩ ⟨0, 0, 1⟩) ⟨0, 0, 0⟩ [wit_obj] [wit_light] =
      .error .missingShadersHardShadow :=
  raytrace_hit_errors.2.2 _ _ _ _ 75 0 wit_obj (by simp) wit_closest_hit

theorem closest_aux_cons (ray : Ray) (obj : Obj) (rest : List Obj) (k : ℕ)
    (acc : Option (ℝ × ℕ × Obj)) :
    closest_aux ray (obj :: rest) k acc =
      closest_aux ray rest (k + 1) (closest_step ray obj k acc) := rfl

theorem closest_step_none (ray : Ray) (obj : Obj) (k : ℕ) :
    closest_step ray obj k none =
      if 0 < ray.intersect obj then some (ray.intersect obj, k, obj) else none := rfl

theorem closest_step_some (ray : Ray) (obj : Obj) (k : ℕ) (tmin : ℝ) (j : ℕ)
    (obj_h : Obj) :
    closest_step ray obj k (some (tmin, j, obj_h)) =
      if 0 < ray.intersect obj ∧ ray.intersect obj < tmin
      then some (ray.intersect obj, k, obj) else some (tmin, j, obj_h) := rfl

theorem closest_aux_eq_none (ray : Ray) (os : List Obj) :
    ∀ (k : ℕ) (acc : Option (ℝ × ℕ × Obj)),
    (closest_aux ray os k acc = none ↔ acc = none ∧ ∀ o ∈ os, ray.intersect o ≤ 0) := by
  induction os with
  | nil =>
    intro k acc
    simp [closest_aux]
  | cons o rest ih =>
    intro k acc
    rw [closest_aux_cons, ih]
    cases acc with
    | none =>
      rw [closest_step_none]
      by_cases h : 0 < ray.intersect o
      · rw [if_pos h]
        constructor
        · rintro ⟨hsome, -⟩
          exact absurd hsome (by simp)
        · rintro ⟨-, hall⟩
          exact absurd (hall o (List.mem_cons_self o rest)) (not_le.mpr h)
      · rw [if_neg h]
        constructor
        · rintro ⟨-, hall⟩
          refine ⟨rfl, ?_⟩
          intro q hq
          rcases List.mem_cons.mp hq with h1 | h1
          · rw [h1]
            exact not_lt.mp h
          · exact hall q h1
        · rintro ⟨-, hall⟩
          exact ⟨rfl, fun q hq => hall q (List.mem_cons_of_mem o hq)⟩
    | some tio =>
      obtain ⟨tmin, j, oh⟩ := tio
      rw [closest_step_some]
      constructor
      · rintro ⟨hsome, -⟩
        by_cases h : 0 < ray.intersect o ∧ ray.intersect o < tmin
        · rw [if_pos h] at hsome
          exact absurd hsome (by simp)
        · rw [if_neg h] at hsome
          exact absurd hsome (by simp)
      · rintro ⟨hsome, -⟩
        exact absurd hsome (by simp)

theorem closest_aux_eq_some (ray : Ray) (os : List Obj) :
    ∀ (k : ℕ) (acc : Option (ℝ × ℕ × Obj)) (t : ℝ) (i : ℕ) (o : Obj),
    closest_aux ray os k acc = some (t, i, o) →
    (acc = some (t, i, o) ∧ ∀ q ∈ os, ray.intersect q ≤ 0 ∨ t ≤ ray.intersect q) ∨
    (∃ pre p post, os = pre ++ p :: post ∧ o = p ∧ i = k + pre.length ∧
      t = ray.intersect p ∧ 0 < t ∧
      (∀ ta ia oa, acc = some (ta, ia, oa) → t < ta) ∧
      (∀ q ∈ pre, ray.intersect q ≤ 0 ∨ t < ray.intersect q) ∧
      (∀ q ∈ post, ray.intersect q ≤ 0 ∨ t ≤ ray.intersect q)) := by
  induction os with
  | nil =>
    intro k acc t i o h
    left
    refine ⟨h, ?_⟩
    intro q hq
    exact absurd hq (List.not_mem_nil q)
  | cons o0 rest ih =>
    intro k acc t i o h
    rw [closest_aux_cons] at h
    rcases ih (k + 1) (closest_step ray o0 k acc) t i o h with
      ⟨hstep, hall⟩ | ⟨pre, p, post, hos, ho, hi, ht, htpos, haccc, hpre, hpost⟩
    · cases acc with
      | none =>
        rw [closest_step_none] at hstep
        by_cases h0 : 0 < ray.intersect o0
        · rw [if_pos h0] at hstep
          simp only [Option.some.injEq, Prod.mk.injEq] at hstep
          obtain ⟨h1, h2, h3⟩ := hstep
          subst h1
          subst h2
          subst h3
          right
          refine ⟨[], o0, rest, by simp, rfl, by simp, rfl, h0, ?_, ?_, hall⟩
          · intro ta ia oa hacc
            exact absurd hacc (by simp)
          · intro q hq
            exact absurd hq (List.not_mem_nil q)
        · rw [if_neg h0] at hstep
          exact absurd hstep (by simp)
      | some tio =>
        obtain ⟨ta, ja, oa⟩ := tio
        rw [closest_step_some] at hstep
        by_cases h0 : 0 < ray.intersect o0 ∧ ray.intersect o0 < ta
        · rw [if_pos h0] at hstep
          simp only [Option.some.injEq, Prod.mk.injEq] at hstep
          obtain ⟨h1, h2, h3⟩ := hstep
          subst h1
          subst h2
          subst h3
          right
          refine ⟨[], o0, rest, by simp, rfl, by simp, rfl, h0.1, ?_, ?_, hall⟩
          · intro ta2 ia2 oa2 hacc
            simp only [Option.some.injEq, Prod.mk.injEq] at hacc
            rw [← hacc.1]
            exact h0.2
          · intro q hq
            exact absurd hq (List.not_mem_nil q)
        · rw [if_neg h0] at hstep
          simp only [Option.some.injEq, Prod.mk.injEq] at hstep
          obtain ⟨h1, h2, h3⟩ := hstep
          subst h1
          subst h2
          subst h3
          left
          refine ⟨rfl, ?_⟩
          intro q hq
          rcases List.mem_cons.mp hq with h1 | h1
          · subst h1
            rcases not_and_or.mp h0 with h2 | h2
            · exact Or.inl (not_lt.mp h2)
            · exact Or.inr (not_lt.mp h2)
          · exact hall q h1
    · right
      refine ⟨o0 :: pre, p, post, by rw [hos]; rfl, ho, ?_, ht, htpos, ?_, ?_, hpost⟩
      · rw [hi, List.length_cons]
        omega
      · intro ta ia oa hacc
        subst hacc
        by_cases hc : 0 < ray.intersect o0 ∧ ray.intersect o0 < ta
        · have h2 := haccc (ray.intersect o0) k o0 (by rw [closest_step_some, if_pos hc])
          linarith [hc.2]
        · exact haccc ta ia oa (by rw [closest_step_some, if_neg hc])
      · intro q hq
        rcases List.mem_cons.mp hq with h1 | h1
        · subst h1
          cases acc with
          | none =>
            by_cases h0 : 0 < ray.intersect q
            · exact Or.inr (haccc (ray.intersect q) k q (by rw [closest_step_none, if_pos h0]))
            · exact Or.inl (not_lt.mp h0)
          | some tio =>
            obtain ⟨ta, ja, oa⟩ := tio
            by_cases hc : 0 < ray.intersect q ∧ ray.intersect q < ta
            · exact Or.inr (haccc (ray.intersect q) k q (by rw [closest_step_some, if_pos hc]))
            · rcases not_and_or.mp hc with h1 | h1
              · exact Or.inl (not_lt.mp h1)
              · have h2 := haccc ta ja oa (by rw [closest_step_some, if_neg hc])
                have h3 := not_lt.mp h1
                exact Or.inr (by linarith)
        · exact hpre q h1

/-- Claim C4: raytrace keeps the primitive with the smallest strictly
positive intersection parameter, first-seen winning ties (everything earlier
in the list is either non-positive or strictly farther; everything later is
non-positive or no closer), and returns the black byte triple when no
primitive yields a strictly positive parameter. -/
theorem raytrace_closest_hit (ray : Ray) (camera_pos : V3) (objects : List Obj)
    (lights : List Light) (hne : objects ≠ []) :
    (closest_hit ray objects = none ↔ ∀ obj ∈ objects, ray.intersect obj ≤ 0) ∧
    (∀ t i obj_h, closest_hit ray objects = some (t, i, obj_h) →
      ∃ pre post, objects = pre ++ obj_h :: post ∧ i = pre.length ∧
        t = ray.intersect obj_h ∧ 0 < t ∧
        (∀ q ∈ pre, ray.intersect q ≤ 0 ∨ t < ray.intersect q) ∧
        (∀ q ∈ post, ray.intersect q ≤ 0 ∨ t ≤ ray.intersect q)) ∧
    ((∀ obj ∈ objects, ray.intersect obj ≤ 0) →
      raytrace ray camera_pos objects lights = .ok 0) := by
  have hnone := closest_aux_eq_none ray objects 0 none
  refine ⟨?_, ?_, ?_⟩
  · rw [closest_hit, hnone]
    simp
  · intro t i obj_h h
    rcases closest_aux_eq_some ray objects 0 none t i obj_h h with
      ⟨hacc, -⟩ | ⟨pre, p, post, hos, ho, hi, ht, htpos, -, hpre, hpost⟩
    · exact absurd hacc (by simp)
    · subst ho
      exact ⟨pre, post, hos, by simpa using hi, ht, htpos, hpre, hpost⟩
  · intro hall
    have hch : closest_hit ray objects = none := by
      rw [closest_hit, hnone]
      exact ⟨rfl, hall⟩
    simp only [raytrace, hch]

/-- Witness for C4: the one-sphere scene.  The ray along `(0,0,1)` selects the
sphere at `t = 75` (with its decomposition), and the away ray `(0,0,-1)`,
intersecting nothing at positive parameter, yields the black pixel. -/
theorem raytrace_closest_hit_witness :
    (∃ pre post, ([wit_obj] : List Obj) = pre ++ wit_obj :: post ∧
      (0 : ℕ) = pre.length ∧
      (75 : ℝ) = (Ray.mk ⟨0, 0, 0⟩ ⟨0, 0, 1⟩).intersect wit_obj ∧ (0 : ℝ) < 75 ∧
      (∀ q ∈ pre, (Ray.mk ⟨0, 0, 0⟩ ⟨0, 0, 1⟩).intersect q ≤ 0 ∨
        75 < (Ray.mk ⟨0, 0, 0⟩ ⟨0, 0, 1⟩).intersect q) ∧
      (∀ q ∈ post, (Ray.mk ⟨0, 0, 0⟩ ⟨0, 0, 1⟩).intersect q ≤ 0 ∨
        (75 : ℝ) ≤ (Ray.mk ⟨0, 0, 0⟩ ⟨0, 0, 1⟩).intersect q)) ∧
    raytrace (Ray.mk ⟨0, 0, 0⟩ ⟨0, 0, -1⟩) ⟨0, 0, 0⟩ [wit_obj] [wit_light] = .ok 0 := by
  constructor
  · exact (raytrace_closest_hit (Ray.mk ⟨0, 0, 0⟩ ⟨0, 0, 1⟩) ⟨0, 0, 0⟩ [wit_obj]
      [wit_light] (by simp)).2.1 75 0 wit_obj wit_closest_hit
  · have haway : (Ray.mk ⟨0, 0, 0⟩ ⟨0, 0, -1⟩).intersect wit_obj = -1 := by
      simp only [Ray.intersect, wit_obj]
      exact isect_away_25
    refine (raytrace_closest_hit (Ray.mk ⟨0, 0, 0⟩ ⟨0, 0, -1⟩) ⟨0, 0, 0⟩ [wit_obj]
      [wit_light] (by simp)).2.2 ?_
    intro q hq
    rw [List.mem_singleton] at hq
    subst hq
    rw [haway]
    norm_num

theorem except_error_bind {α β : Type} (e : PyErr) (f : α → Except PyErr β) :
    (Except.error e >>= f) = Except.error e := rfl

theorem except_ok_bind {α β : Type} (a : α) (f : α → Except PyErr β) :
    (Except.ok a >>= f) = f a := rfl

theorem intersect_sphere_val (r : Ray) (C : V3) (rad : ℝ) :
    r.intersect_sphere ⟨C, rad⟩ =
      if dot r.nr (r.pr - C) > 0 ∨
          dot r.nr (r.pr - C) ^ 2 - (dot (r.pr - C) (r.pr - C) - rad ^ 2) < 0 then -1
      else -1 * dot r.nr (r.pr - C) -
        Real.sqrt (dot r.nr (r.pr - C) ^ 2 - (dot (r.pr - C) (r.pr - C) - rad ^ 2)) := rfl

/-- With the near-root-only sphere solver, a ray can never hit an inner
sphere at a strictly positive parameter smaller than its hit on a concentric
outer sphere: the outer (atmosphere) entry always comes first.  Hence the
planet-shadow skip test of the sky integrators never fires. -/
theorem sphere_nested_no_skip (r : Ray) (C : V3) (rp ra : ℝ) (h0 : 0 ≤ rp)
    (hle : rp ≤ ra) :
    ¬(0 < r.intersect_sphere ⟨C, rp⟩ ∧
      r.intersect_sphere ⟨C, rp⟩ < r.intersect_sphere ⟨C, ra⟩) := by
  rintro ⟨hp, hlt⟩
  by_cases hcond : dot r.nr (r.pr - C) > 0 ∨
      dot r.nr (r.pr - C) ^ 2 - (dot (r.pr - C) (r.pr - C) - rp ^ 2) < 0
  · rw [intersect_sphere_val, if_pos hcond] at hp
    norm_num at hp
  · have hcond2 := hcond
    push_neg at hcond2
    obtain ⟨hb0, hdp⟩ := hcond2
    have hsqle : rp ^ 2 ≤ ra ^ 2 := by
      have := pow_le_pow_left₀ h0 hle 2
      simpa using this
    have hda : (0 : ℝ) ≤ dot r.nr (r.pr - C) ^ 2 -
        (dot (r.pr - C) (r.pr - C) - ra ^ 2) := by linarith
    have hconda : ¬(dot r.nr (r.pr - C) > 0 ∨
        dot r.nr (r.pr - C) ^ 2 - (dot (r.pr - C) (r.pr - C) - ra ^ 2) < 0) := by
      push_neg
      exact ⟨hb0, hda⟩
    rw [intersect_sphere_val, if_neg hcond, intersect_sphere_val r C ra,
      if_neg hconda] at hlt
    have hmono := Real.sqrt_le_sqrt (show
      dot r.nr (r.pr - C) ^ 2 - (dot (r.pr - C) (r.pr - C) - rp ^ 2) ≤
      dot r.nr (r.pr - C) ^ 2 - (dot (r.pr - C) (r.pr - C) - ra ^ 2) by linarith)
    linarith

/-- Specialization: the planet-shadow skip condition of the sky integrators
is false for every sun ray once the sky dome has a nonnegative planet radius
and atmosphere height. -/
theorem no_planet_shadow_skip (sky : SkyDome) (hr0 : 0 ≤ sky.radius)
    (hh0 : 0 ≤ sky.atmosphere_height) (sr : Ray) :
    ¬(0 < sr.intersect sky.planet_obj ∧
      sr.intersect sky.planet_obj < sr.intersect sky.atmosphere_obj) :=
  sphere_nested_no_skip sr sky.center sky.radius (sky.radius + sky.atmosphere_height)
    hr0 (by linarith)

theorem optical_depth_core_error (density : V3 → Except PyErr ℝ) (e : PyErr)
    (hd : ∀ q, density q = .error e) (p direction : V3) (distance : ℝ)
    (randoms : ℕ → ℝ) (n : ℕ) (hn : 1 ≤ n) :
    optical_depth_core density p direction distance randoms n = .error e := by
  obtain ⟨m, rfl⟩ : ∃ m, n = m + 1 := ⟨n - 1, by omega⟩
  rw [optical_depth_core, List.range_succ_eq_map, List.foldlM_cons, od_step]
  simp only [hd, except_error_bind]

theorem out_scattering_core_error (density : V3 → Except PyErr ℝ) (e : PyErr)
    (hd : ∀ q, density q = .error e) (p direction : V3) (distance : ℝ)
    (randoms : ℕ → ℝ) (n : ℕ) (hn : 1 ≤ n) :
    out_scattering_core density p direction distance randoms n = .error e := by
  rw [out_scattering_core, optical_depth_core_error density e hd p direction
    distance randoms n hn]
  rfl

theorem ten_pos : 1 ≤ OPTICAL_DEPTH_SAMPLES := by
  rw [OPTICAL_DEPTH_SAMPLES]
  omega

theorem light_at_ray_core_error (density : V3 → Except PyErr ℝ) (e : PyErr)
    (hd : ∀ q, density q = .error e) (sky : SkyDome) (hr0 : 0 ≤ sky.radius)
    (hh0 : 0 ≤ sky.atmosphere_height) (r : Ray) (randoms : ℕ → ℝ)
    (sun_randoms view_randoms : ℕ → ℕ → ℝ) (n : ℕ) (hn : 1 ≤ n) :
    light_at_ray_core density sky r randoms sun_randoms view_randoms n = .error e := by
  obtain ⟨m, rfl⟩ : ∃ m, n = m + 1 := ⟨n - 1, by omega⟩
  rw [light_at_ray_core, List.range_succ_eq_map, List.foldlM_cons, light_sample_step]
  rw [if_neg (no_planet_shadow_skip sky hr0 hh0 _)]
  rw [optical_depth_core_error density e hd _ _ _ _ OPTICAL_DEPTH_SAMPLES ten_pos]
  simp only [except_error_bind]

theorem in_scattering_core_error (density : V3 → Except PyErr ℝ) (e : PyErr)
    (hd : ∀ q, density q = .error e) (sky : SkyDome) (hr0 : 0 ≤ sky.radius)
    (hh0 : 0 ≤ sky.atmosphere_height) (r : Ray) (randoms : ℕ → ℝ)
    (sun_randoms view_randoms : ℕ → ℕ → ℝ) (n : ℕ) (hn : 1 ≤ n) :
    in_scattering_core density sky r randoms sun_randoms view_randoms n = .error e := by
  obtain ⟨m, rfl⟩ : ∃ m, n = m + 1 := ⟨n - 1, by omega⟩
  rw [in_scattering_core, List.range_succ_eq_map, List.foldlM_cons]
  rw [if_neg (no_planet_shadow_skip sky hr0 hh0 _)]
  rw [out_scattering_core_error density e hd _ _ _ _ OPTICAL_DEPTH_SAMPLES ten_pos]
  simp only [except_error_bind]

/-- Claim C3: every atmospheric operation fails instead of returning a
value.  `utils.distance` is not defined in src/utils.py, so density_at_point
raises for every point, and optical_depth, out_scattering, in_scattering and
light_at_ray (which all reach a density query — the planet-shadow skip can
never fire) propagate the error for any positive number of samples (the
module's defaults are 10). -/
theorem atmosphere_ops_error :
    utils_distance = none ∧
    (∀ (sky : SkyDome) (p : V3),
      sky.density_at_point p = .error .missingUtilsDistance) ∧
    (∀ (sky : SkyDome) (p direction : V3) (distance : ℝ) (randoms : ℕ → ℝ)
      (n : ℕ), 1 ≤ n →
      sky.optical_depth p direction distance randoms n = .error .missingUtilsDistance) ∧
    (∀ (sky : SkyDome) (p direction : V3) (distance : ℝ) (randoms : ℕ → ℝ)
      (n : ℕ), 1 ≤ n →
      sky.out_scattering p direction distance randoms n = .error .missingUtilsDistance) ∧
    (∀ (sky : SkyDome) (r : Ray) (randoms : ℕ → ℝ)
      (sun_randoms view_randoms : ℕ → ℕ → ℝ) (n : ℕ),
      0 ≤ sky.radius → 0 ≤ sky.atmosphere_height → 1 ≤ n →
      sky.in_scattering r randoms sun_randoms view_randoms n =
        .error .missingUtilsDistance) ∧
    (∀ (sky : SkyDome) (r : Ray) (randoms : ℕ → ℝ)
      (sun_randoms view_randoms : ℕ → ℕ → ℝ) (n : ℕ),
      0 ≤ sky.radius → 0 ≤ sky.atmosphere_height → 1 ≤ n →
      sky.light_at_ray r randoms sun_randoms view_randoms n =
        .error .missingUtilsDistance) := by
  refine ⟨rfl, fun sky p => rfl, ?_, ?_, ?_, ?_⟩
  · intro sky p direction distance randoms n hn
    exact optical_depth_core_error sky.density_at_point _ (fun q => rfl)
      p direction distance randoms n hn
  · intro sky p direction distance randoms n hn
    exact out_scattering_core_error sky.density_at_point _ (fun q => rfl)
      p direction distance randoms n hn
  · intro sky r randoms sun_randoms view_randoms n hr0 hh0 hn
    exact in_scattering_core_error sky.density_at_point _ (fun q => rfl)
      sky hr0 hh0 r randoms sun_randoms view_randoms n hn
  · intro sky r randoms sun_randoms view_randoms n hr0 hh0 hn
    exact light_at_ray_core_error sky.density_at_point _ (fun q => rfl)
      sky hr0 hh0 r randoms sun_randoms view_randoms n hn

/-- Witness for C3: the concrete unit sky dome and view ray, 10 view samples
(the module default), propagate the missing-attribute error. -/
theorem atmosphere_ops_error_witness :
    (0 : ℝ) ≤ cex_sky.radius ∧ (0 : ℝ) ≤ cex_sky.atmosphere_height ∧
    (1 : ℕ) ≤ 10 ∧
    cex_sky.light_at_ray cex_ray (fun _ => 1 / 2) (fun _ _ => 0) (fun _ _ => 0) 10 =
      .error .missingUtilsDistance := by
  have h1 : (0 : ℝ) ≤ cex_sky.radius := by norm_num [cex_sky]
  have h2 : (0 : ℝ) ≤ cex_sky.atmosphere_height := by norm_num [cex_sky]
  exact ⟨h1, h2, by omega,
    atmosphere_ops_error.2.2.2.2.2 cex_sky cex_ray (fun _ => 1 / 2)
      (fun _ _ => 0) (fun _ _ => 0) 10 h1 h2 (by omega)⟩

theorem V3.add_zero (a : V3) : a + 0 = a := by
  rw [V3.eq_iff]
  simp

theorem V3.add_assoc (a b c : V3) : a + b + c = a + (b + c) := by
  rw [V3.eq_iff]
  simp only [V3.add_x, V3.add_y, V3.add_z]
  exact ⟨by ring, by ring, by ring⟩

theorem except_pure {α : Type} (a : α) : (pure a : Except PyErr α) = .ok a := rfl

theorem foldlM_range_add_real (f : ℝ → ℕ → Except PyErr ℝ) (g : ℕ → ℝ)
    (hf : ∀ acc i, f acc i = .ok (acc + g i)) (n : ℕ) : ∀ a : ℝ,
    (List.range n).foldlM f a = .ok (a + ∑ i ∈ Finset.range n, g i) := by
  induction n with
  | zero =>
    intro a
    simp [List.foldlM, except_pure]
  | succ m ih =>
    intro a
    rw [List.range_succ, List.foldlM_append, ih, except_ok_bind]
    simp only [List.foldlM, hf, except_ok_bind, except_pure, Finset.sum_range_succ]
    rw [Except.ok.injEq]
    ring

theorem foldlM_range_add_v3 (f : V3 → ℕ → Except PyErr V3) (g : ℕ → V3)
    (hf : ∀ acc i, f acc i = .ok (acc + g i)) (n : ℕ) : ∀ a : V3,
    (List.range n).foldlM f a = .ok (a + sumV3 g n) := by
  induction n with
  | zero =>
    intro a
    simp only [List.range_zero, List.foldlM_nil, sumV3, V3.add_zero]
    rfl
  | succ m ih =>
    intro a
    rw [List.range_succ, List.foldlM_append, ih, except_ok_bind]
    simp only [List.foldlM, hf, except_ok_bind, except_pure]
    rw [Except.ok.injEq]
    show a + sumV3 g m + g m = a + (sumV3 g m + g m)
    exact V3.add_assoc _ _ _

theorem od_step_ok (df : V3 → ℝ) (p direction : V3) (distance : ℝ)
    (randoms : ℕ → ℝ) (n : ℕ) (acc : ℝ) (i : ℕ) :
    od_step (fun q => .ok (df q)) p direction distance randoms n acc i =
      .ok (acc +
        df (p + (((i : ℝ) + randoms i) * (distance / (n : ℝ))) • direction) *
          (((i : ℝ) + randoms i) * (distance / (n : ℝ)))) := rfl

theorem optical_depth_core_ok (df : V3 → ℝ) (p direction : V3) (distance : ℝ)
    (randoms : ℕ → ℝ) (n : ℕ) :
    optical_depth_core (fun q => .ok (df q)) p direction distance randoms n =
      .ok (od_sum df p direction distance randoms n) := by
  rw [optical_depth_core]
  have h := foldlM_range_add_real _ _ (od_step_ok df p direction distance randoms n) n 0
  rw [zero_add] at h
  exact h

theorem light_sample_step_ok (df : V3 → ℝ) (sky : SkyDome) (r : Ray)
    (randoms : ℕ → ℝ) (sun_randoms view_randoms : ℕ → ℕ → ℝ) (n : ℕ)
    (acc : V3) (i : ℕ) :
    light_sample_step (fun q => .ok (df q)) sky r randoms sun_randoms
      view_randoms n acc i =
      .ok (acc + sample_term df sky r randoms sun_randoms view_randoms n
        (code_weight sky r randoms n) i) := by
  rw [light_sample_step, sample_term]
  by_cases hskip : 0 < (Ray.mk (r.at_t ((r.intersect sky.atmosphere_obj / (n : ℝ)) *
        ((i : ℝ) + randoms i))) sky.sun_direction).intersect sky.planet_obj ∧
      (Ray.mk (r.at_t ((r.intersect sky.atmosphere_obj / (n : ℝ)) *
        ((i : ℝ) + randoms i))) sky.sun_direction).intersect sky.planet_obj <
      (Ray.mk (r.at_t ((r.intersect sky.atmosphere_obj / (n : ℝ)) *
        ((i : ℝ) + randoms i))) sky.sun_direction).intersect sky.atmosphere_obj
  · rw [if_pos hskip, if_pos hskip, except_pure, V3.add_zero]
  · rw [if_neg hskip, if_neg hskip]
    rw [optical_depth_core_ok, except_ok_bind, optical_depth_core_ok, except_ok_bind]
    rw [except_ok_bind, except_pure, sample_transmittance, code_weight]

/-- Claim C5, amended: in light_at_ray each non-shadowed sample `i`
contributes `density(sample) · exp(−(sunOD + viewOD)·coeffs) · segmentWeight`
with `segmentWeight = uniformRandom · segmentLength/N` (`code_weight`), not
the `(i + uniformRandom) · segmentLength/N` jittered-distance convention of
the optical-depth quadrature; the accumulated sum is then scaled by the
scattering coefficients, normalized by the planet radius and clamped. -/
theorem light_at_ray_weight_amended (df : V3 → ℝ) (sky : SkyDome) (r : Ray)
    (randoms : ℕ → ℝ) (sun_randoms view_randoms : ℕ → ℕ → ℝ) (n : ℕ) :
    light_at_ray_core (fun q => .ok (df q)) sky r randoms sun_randoms
      view_randoms n =
      .ok (clip3
        (V3.divS
          (sumV3 (sample_term df sky r randoms sun_randoms view_randoms n
            (code_weight sky r randoms n)) n * SCATTERING_COEFFICIENTS)
          sky.radius) 0 1) := by
  rw [light_at_ray_core]
  have h := foldlM_range_add_v3 _ _
    (light_sample_step_ok df sky r randoms sun_randoms view_randoms n) n 0
  rw [h, except_ok_bind, V3.zero_add]
  rfl

theorem sqrt_4 : Real.sqrt 4 = 2 := sqrt_eval (by norm_num) (by norm_num)

theorem cex_d : cex_ray.intersect cex_sky.atmosphere_obj = 2 := by
  show cex_ray.intersect_sphere ⟨cex_sky.center, cex_sky.radius + cex_sky.atmosphere_height⟩ = 2
  rw [intersect_sphere_val]
  simp only [cex_sky, cex_ray, dot, V3.sub_x, V3.sub_y, V3.sub_z, V3.zero_x,
    V3.zero_y, V3.zero_z]
  norm_num [sqrt_4]

theorem cex_at (t : ℝ) : cex_ray.at_t t = ⟨0, 0, -4 + t⟩ := by
  rw [V3.eq_iff]
  simp only [Ray.at_t, cex_ray, V3.add_x, V3.add_y, V3.add_z, V3.smul_x,
    V3.smul_y, V3.smul_z]
  exact ⟨by ring, by ring, by ring⟩

theorem cex_sun_dir : cex_sky.sun_direction = ⟨0, 0, 1⟩ := rfl

theorem cex_sun_atm (z : ℝ) (hz : z ≤ 0) :
    (Ray.mk ⟨0, 0, z⟩ ⟨0, 0, 1⟩).intersect cex_sky.atmosphere_obj = -z - 2 := by
  show (Ray.mk ⟨0, 0, z⟩ ⟨0, 0, 1⟩).intersect_sphere
    ⟨cex_sky.center, cex_sky.radius + cex_sky.atmosphere_height⟩ = -z - 2
  have hb : dot (⟨0, 0, 1⟩ : V3) ((⟨0, 0, z⟩ : V3) - cex_sky.center) = z := by
    simp only [cex_sky, dot, V3.sub_x, V3.sub_y, V3.sub_z, V3.zero_x, V3.zero_y,
      V3.zero_z]
    ring
  have hdd : dot ((⟨0, 0, z⟩ : V3) - cex_sky.center)
      ((⟨0, 0, z⟩ : V3) - cex_sky.center) = z ^ 2 := by
    simp only [cex_sky, dot, V3.sub_x, V3.sub_y, V3.sub_z, V3.zero_x, V3.zero_y,
      V3.zero_z]
    ring
  rw [intersect_sphere_val, hb, hdd]
  have hrad : z ^ 2 - (z ^ 2 - (cex_sky.radius + cex_sky.atmosphere_height) ^ 2) = 4 := by
    simp only [cex_sky]
    ring
  rw [hrad, if_neg (by push_neg; exact ⟨hz, by norm_num⟩), sqrt_4]
  ring

theorem od_sum_cex (p direction : V3) (D : ℝ) :
    od_sum cex_density p direction D (fun _ => 0) OPTICAL_DEPTH_SAMPLES =
      9 * D / 2 := by
  rw [od_sum, OPTICAL_DEPTH_SAMPLES]
  simp only [cex_density]
  rw [Finset.sum_range_succ, Finset.sum_range_succ, Finset.sum_range_succ,
    Finset.sum_range_succ, Finset.sum_range_succ, Finset.sum_range_succ,
    Finset.sum_range_succ, Finset.sum_range_succ, Finset.sum_range_succ,
    Finset.sum_range_succ, Finset.sum_range_zero]
  push_cast
  ring

theorem cex_T0 :
    sample_transmittance cex_density cex_sky cex_ray (fun _ => 1 / 2)
      (fun _ _ => 0) (fun _ _ => 0) 2 0 =
      exp3 (-((9 : ℝ) • SCATTERING_COEFFICIENTS)) := by
  rw [sample_transmittance]
  rw [cex_d, cex_at, cex_sun_dir]
  rw [cex_sun_atm _ (by norm_num)]
  rw [od_sum_cex, od_sum_cex]
  congr 2
  norm_num

theorem cex_T1 :
    sample_transmittance cex_density cex_sky cex_ray (fun _ => 1 / 2)
      (fun _ _ => 0) (fun _ _ => 0) 2 1 =
      exp3 (-((9 : ℝ) • SCATTERING_COEFFICIENTS)) := by
  rw [sample_transmittance]
  rw [cex_d, cex_at, cex_sun_dir]
  rw [cex_sun_atm _ (by norm_num)]
  rw [od_sum_cex, od_sum_cex]
  congr 2
  norm_num

theorem cex_sky_r0 : (0 : ℝ) ≤ cex_sky.radius := by norm_num [cex_sky]

theorem cex_sky_h0 : (0 : ℝ) ≤ cex_sky.atmosphere_height := by norm_num [cex_sky]

theorem cex_term0_code :
    sample_term cex_density cex_sky cex_ray (fun _ => 1 / 2) (fun _ _ => 0)
      (fun _ _ => 0) 2 (code_weight cex_sky cex_ray (fun _ => 1 / 2) 2) 0 =
      (1 / 2 : ℝ) • exp3 (-((9 : ℝ) • SCATTERING_COEFFICIENTS)) := by
  rw [sample_term]
  rw [if_neg (no_planet_shadow_skip cex_sky cex_sky_r0 cex_sky_h0 _)]
  rw [cex_T0, code_weight, cex_d]
  simp only [cex_density]
  congr 1
  norm_num

theorem cex_term1_code :
    sample_term cex_density cex_sky cex_ray (fun _ => 1 / 2) (fun _ _ => 0)
      (fun _ _ => 0) 2 (code_weight cex_sky cex_ray (fun _ => 1 / 2) 2) 1 =
      (1 / 2 : ℝ) • exp3 (-((9 : ℝ) • SCATTERING_COEFFICIENTS)) := by
  rw [sample_term]
  rw [if_neg (no_planet_shadow_skip cex_sky cex_sky_r0 cex_sky_h0 _)]
  rw [cex_T1, code_weight, cex_d]
  simp only [cex_density]
  congr 1
  norm_num

theorem cex_term0_claim :
    sample_term cex_density cex_sky cex_ray (fun _ => 1 / 2) (fun _ _ => 0)
      (fun _ _ => 0) 2 (claimed_weight cex_sky cex_ray (fun _ => 1 / 2) 2) 0 =
      (1 / 2 : ℝ) • exp3 (-((9 : ℝ) • SCATTERING_COEFFICIENTS)) := by
  rw [sample_term]
  rw [if_neg (no_planet_shadow_skip cex_sky cex_sky_r0 cex_sky_h0 _)]
  rw [cex_T0, claimed_weight, cex_d]
  simp only [cex_density]
  congr 1
  norm_num

theorem cex_term1_claim :
    sample_term cex_density cex_sky cex_ray (fun _ => 1 / 2) (fun _ _ => 0)
      (fun _ _ => 0) 2 (claimed_weight cex_sky cex_ray (fun _ => 1 / 2) 2) 1 =
      (3 / 2 : ℝ) • exp3 (-((9 : ℝ) • SCATTERING_COEFFICIENTS)) := by
  rw [sample_term]
  rw [if_neg (no_planet_shadow_skip cex_sky cex_sky_r0 cex_sky_h0 _)]
  rw [cex_T1, claimed_weight, cex_d]
  simp only [cex_density]
  congr 1
  norm_num

/-- Counterexample to claim C5 as stated: on a concrete sky dome, view ray,
jitter values and density oracle, the light_at_ray loop does not equal the
integral the claim describes, in which each sample is weighted by the
optical-depth jittered-distance convention `(i + uniformRandom)·segLen/N` —
the code weights sample `i` by `uniformRandom·segLen/N` instead. -/
theorem light_at_ray_weight_counterexample :
    light_at_ray_core (fun q => .ok (cex_density q)) cex_sky cex_ray
      (fun _ => 1 / 2) (fun _ _ => 0) (fun _ _ => 0) 2 ≠
    .ok (light_at_ray_claim_formula cex_density cex_sky cex_ray (fun _ => 1 / 2)
      (fun _ _ => 0) (fun _ _ => 0) 2) := by
  rw [light_at_ray_core]
  have h := foldlM_range_add_v3 _ _
    (light_sample_step_ok cex_density cex_sky cex_ray (fun _ => 1 / 2)
      (fun _ _ => 0) (fun _ _ => 0) 2) 2 0
  rw [h, except_ok_bind, V3.zero_add, light_at_ray_claim_formula]
  intro heq
  rw [except_pure, Except.ok.injEq] at heq
  have hx := congrArg V3.x heq
  have hsum_code : sumV3 (sample_term cex_density cex_sky cex_ray (fun _ => 1 / 2)
      (fun _ _ => 0) (fun _ _ => 0) 2
      (code_weight cex_sky cex_ray (fun _ => 1 / 2) 2)) 2 =
      ((1 / 2 : ℝ) • exp3 (-((9 : ℝ) • SCATTERING_COEFFICIENTS)) +
        (1 / 2 : ℝ) • exp3 (-((9 : ℝ) • SCATTERING_COEFFICIENTS))) := by
    show (0 : V3) + _ + _ = _
    rw [cex_term0_code, cex_term1_code, V3.zero_add]
  have hsum_claim : sumV3 (sample_term cex_density cex_sky cex_ray (fun _ => 1 / 2)
      (fun _ _ => 0) (fun _ _ => 0) 2
      (claimed_weight cex_sky cex_ray (fun _ => 1 / 2) 2)) 2 =
      ((1 / 2 : ℝ) • exp3 (-((9 : ℝ) • SCATTERING_COEFFICIENTS)) +
        (3 / 2 : ℝ) • exp3 (-((9 : ℝ) • SCATTERING_COEFFICIENTS))) := by
    show (0 : V3) + _ + _ = _
    rw [cex_term0_claim, cex_term1_claim, V3.zero_add]
  rw [hsum_code, hsum_claim] at hx
  simp only [clip3_x, V3.divS_x, V3.mul_x, V3.add_x, V3.smul_x, exp3_x, V3.neg_x,
    V3.smul_x] at hx
  set c : ℝ := SCATTERING_COEFFICIENTS.x with hc
  have hcval : c = 1 / 650 ^ 4 := by
    rw [hc]
    simp only [SCATTERING_COEFFICIENTS, SCATTERING_SCALE, WAVE_LENGTHS, V3.smul_x]
    norm_num
  set E : ℝ := Real.exp (-(9 * c)) with hE
  have hE0 : 0 < E := Real.exp_pos _
  have hE1 : E ≤ 1 := by
    rw [hE]
    apply Real.exp_le_one_iff.mpr
    rw [hcval]
    norm_num
  have hc0 : 0 < c := by
    rw [hcval]
    norm_num
  have hc1 : c ≤ 1 / 2 := by
    rw [hcval]
    norm_num
  have hrad : cex_sky.radius = 1 := rfl
  rw [hrad] at hx
  have harg1 : (1 / 2 * E + 1 / 2 * E) * c / 1 = E * c := by ring
  have harg2 : (1 / 2 * E + 3 / 2 * E) * c / 1 = 2 * (E * c) := by ring
  rw [harg1, harg2] at hx
  have hb1 : E * c ≤ 1 := by nlinarith
  have hb2 : 2 * (E * c) ≤ 1 := by nlinarith
  have hp : 0 < E * c := mul_pos hE0 hc0
  rw [clip1_of_le _ _ _ (by linarith) hb1, clip1_of_le _ _ _ (by linarith) hb2] at hx
  linarith [hp, hx]

/-- Claim C9: the density body equals
`exp(−normalizedHeight·falloff) · (1 − normalizedHeight)` with
`normalizedHeight = (distance(p, center) − planetRadius) / atmosphereHeight`
(for any distance function, in particular the spec's Euclidean
`distance_spec`), and for the fixed falloff this value is non-negative on
`[0,1]` and strictly decreasing as the normalized height increases from 0 to
1. -/
theorem density_formula_props :
    (∀ (dist : V3 → V3 → ℝ) (sky : SkyDome) (p : V3),
      density_body dist sky p =
        density_of_normalized_height
          ((dist p sky.center - sky.radius) / sky.atmosphere_height)) ∧
    (∀ nh : ℝ, 0 ≤ nh → nh ≤ 1 → 0 ≤ density_of_normalized_height nh) ∧
    (∀ h1 h2 : ℝ, 0 ≤ h1 → h1 < h2 → h2 ≤ 1 →
      density_of_normalized_height h2 < density_of_normalized_height h1) := by
  refine ⟨fun dist sky p => rfl, ?_, ?_⟩
  · intro nh h0 h1
    rw [density_of_normalized_height]
    have he : 0 < Real.exp (-nh * DENSITY_FALLOFF) := Real.exp_pos _
    nlinarith
  · intro h1 h2 h0 hlt hle
    rw [density_of_normalized_height, density_of_normalized_height]
    have hexp : Real.exp (-h2 * DENSITY_FALLOFF) < Real.exp (-h1 * DENSITY_FALLOFF) := by
      apply Real.exp_lt_exp.mpr
      rw [DENSITY_FALLOFF]
      nlinarith
    have he1 : 0 < Real.exp (-h1 * DENSITY_FALLOFF) := Real.exp_pos _
    have he2 : 0 < Real.exp (-h2 * DENSITY_FALLOFF) := Real.exp_pos _
    have f1 : 0 ≤ (Real.exp (-h1 * DENSITY_FALLOFF) -
        Real.exp (-h2 * DENSITY_FALLOFF)) * (1 - h2) :=
      mul_nonneg (by linarith) (by linarith)
    have f2 : 0 < Real.exp (-h1 * DENSITY_FALLOFF) * (h2 - h1) :=
      mul_pos he1 (by linarith)
    nlinarith [f1, f2]

/-- Witness for C9: the density formula with the spec's Euclidean distance at
a concrete point, non-negativity at normalized height 1/2, and the strict
decrease from height 0 to height 1/2. -/
theorem density_formula_props_witness :
    density_body distance_spec cex_sky ⟨0, 0, 0⟩ =
      density_of_normalized_height
        ((distance_spec ⟨0, 0, 0⟩ cex_sky.center - cex_sky.radius) /
          cex_sky.atmosphere_height) ∧
    (0 : ℝ) ≤ 1 / 2 ∧ (1 / 2 : ℝ) ≤ 1 ∧ (0 : ℝ) < 1 / 2 ∧
    0 ≤ density_of_normalized_height (1 / 2) ∧
    density_of_normalized_height (1 / 2) < density_of_normalized_height 0 := by
  refine ⟨density_formula_props.1 distance_spec cex_sky ⟨0, 0, 0⟩,
    by norm_num, by norm_num, by norm_num, ?_, ?_⟩
  · exact density_formula_props.2.1 (1 / 2) (by norm_num) (by norm_num)
  · exact density_formula_props.2.2 0 (1 / 2) (by norm_num) (by norm_num) (by norm_num)

end

end SimpleRaytracer
